import Mathlib

/-!
Shallow embedding of the per-match session coordinator of `samueljim/balls`
(`src/apps/worker/src/game.ts`, the `Game` Durable Object class).

Modelling conventions:
* JS numbers that the coordinator merely stores, copies or compares
  (coordinates, velocities, hp, terrain-damage triples, aim angles) are
  modelled as `Int`; the coordinator never performs arithmetic on them, so
  no floating-point behaviour is lost.
* Wall-clock times (`Date.now()` results, `turnEndTime`, `phaseStartTime`)
  are milliseconds, modelled as `Int`; the only arithmetic on them is
  addition of constants and `≥` comparisons, which JS doubles perform
  exactly in this range.
* The sender of a WebSocket message is identified by its registered seat
  index (the code resolves socket → playerId → index and drops messages
  from unregistered senders before any branch below runs; we model the
  already-resolved index).
* `broadcast` calls are modelled as a list of emitted messages, and
  `storage.setAlarm` as an `Option Int` holding the absolute deadline.
* The deferred (`setTimeout`) parts of `maybeBotTurn` run outside the
  synchronous handler step; the only synchronous broadcast `maybeBotTurn`
  makes is the bot aim preview, modelled by `ServerMsg.botAimPreview`
  (its float angle payload is not needed by any claim).
-/

namespace Balls

/-- The `phase` field of `GameState` (`types.ts`): `"aiming" | "projectile" | "retreat"`. -/
inductive Phase where
  | aiming
  | projectile
  | retreat
deriving DecidableEq, Repr

/-- One entry of `playerOrder`: `{ playerId, isBot, name }`. -/
structure PlayerEntry where
  playerId : String
  isBot : Bool
  name : String
deriving DecidableEq, Repr

/-- Mirror of `GameState` from `types.ts`. -/
structure GameState where
  playerOrder : List PlayerEntry
  inputLog : List String
  currentTurnIndex : Nat
  turnEndTime : Int
  phase : Phase
  rngSeed : Nat
  terrainId : Nat
deriving DecidableEq, Repr

/-- Mirror of `BallSnapshot` from `game.ts`: `{ x, y, vx, vy, hp, alive }`. -/
structure BallSnapshot where
  x : Int
  y : Int
  vx : Int
  vy : Int
  hp : Int
  alive : Bool
deriving DecidableEq, Repr

/-- The mutable fields of the `Game` Durable Object that the claims concern:
`gameState`, `terrainDamageLog`, `ballSnapshots`, `phaseStartTime`. -/
structure Session where
  gameState : GameState
  terrainDamageLog : List (List Int)
  ballSnapshots : List BallSnapshot
  phaseStartTime : Int
deriving DecidableEq, Repr

/-- Constant `TURN_TIME_MS = 45_000`. -/
def TURN_TIME_MS : Int := 45000
/-- Constant `RETREAT_TIME_MS = 8_000`. -/
def RETREAT_TIME_MS : Int := 8000
/-- Constant `WATCHDOG_GRACE_MS = 5_000`. -/
def WATCHDOG_GRACE_MS : Int := 5000
/-- Constant `PROJECTILE_TIMEOUT_MS = 20_000`. -/
def PROJECTILE_TIMEOUT_MS : Int := 20000

/-- Messages the coordinator emits via `broadcast` (only the variants the
claims mention carry their payloads in full). -/
inductive ServerMsg where
  /-- Message `{ type: "state", state: gameState }`. -/
  | stateMsg (gs : GameState)
  /-- Message `{ type: "turn_advanced", turnIndex, balls, terrainLog }`. -/
  | turnAdvanced (turnIndex : Nat) (balls : List BallSnapshot)
      (terrainLog : List (List Int))
  /-- Message `{ type: "force_advance", reason }`. -/
  | forceAdvance (reason : String)
  /-- Relay `{ type: "input", input, turnIndex }`. -/
  | inputRelay (input : String) (turnIndex : Nat)
  /-- Relay `{ type: "aim", aim, turnIndex }`. -/
  | aimRelay (aim : Int) (turnIndex : Nat)
  /-- Relay `{ type: "restart", seed }`. -/
  | restartRelay (seed : Nat)
  /-- relay of an accepted `pos_update` message (`bi`, then optional x, y, vx, vy) -/
  | posUpdateRelay (bi : Int) (x y vx vy : Option Int)
  /-- relay of a `ball_state` message -/
  | ballStateRelay
  /-- the synchronous bot aim preview broadcast by `maybeBotTurn` -/
  | botAimPreview (turnIndex : Nat)
deriving DecidableEq, Repr

/-- Result of one synchronous coordinator step: the new session state, the
broadcast messages in order, and the alarm deadline set by
`scheduleWatchdog` (if any). -/
structure StepOut where
  session : Session
  msgs : List ServerMsg
  alarm : Option Int
deriving DecidableEq, Repr

/-- Model of `scheduleWatchdog` (`game.ts:245`): absolute alarm deadline derived from
the current phase. -/
def scheduleWatchdog (s : Session) : Int :=
  match s.gameState.phase with
  | .projectile => s.phaseStartTime + PROJECTILE_TIMEOUT_MS
  | .retreat => s.phaseStartTime + RETREAT_TIME_MS
  | .aiming => s.gameState.turnEndTime + WATCHDOG_GRACE_MS

/-- The `/init` POST body: `{ playerOrder?, rngSeed?, terrainId? }`; absent
fields are `none`. -/
structure InitBody where
  playerOrder : Option (List PlayerEntry)
  rngSeed : Option Nat
  terrainId : Option Nat
deriving DecidableEq, Repr

/-- The JSON response of `handleInit`, up to the fields the code sets. -/
inductive InitResponse where
  /-- Response `{ ok: true, alreadyInitialized: true }`. -/
  | alreadyInitialized
  /-- Response `{ ok: true }`. -/
  | ok
deriving DecidableEq, Repr

/-- The blank snapshot `handleInit` fills `ballSnapshots` with. -/
def blankBall : BallSnapshot := { x := 0, y := 0, vx := 0, vy := 0, hp := 100, alive := true }

/-- Model of `handleInit` (`game.ts:86-135`).  `now` is `Date.now()`; `fallbackSeed`
models the `Math.floor(Math.random() * 0xFFFFFFFF)` fallback used when the
body carries no `rngSeed`.  The identity/state broadcasts to already
connected sockets do not mutate session state and are not needed by any
claim, so the model returns only the new session and the response. -/
def handleInit (s : Session) (body : InitBody) (now : Int) (fallbackSeed : Nat) :
    Session × InitResponse :=
  if s.gameState.playerOrder.length > 0 then
    (s, .alreadyInitialized)
  else
    let po := body.playerOrder.getD []
    let gs : GameState :=
      { playerOrder := po
        inputLog := []
        currentTurnIndex := 0
        turnEndTime := now + TURN_TIME_MS
        phase := .aiming
        rngSeed := body.rngSeed.getD fallbackSeed
        terrainId := body.terrainId.getD 0 }
    ({ gameState := gs
       terrainDamageLog := s.terrainDamageLog
       ballSnapshots := List.replicate (po.length * 3) blankBall
       phaseStartTime := now }, .ok)

/-- Value `2^32`, the modulus of the `>>> 0` coercions in `botRand`. -/
def pow32 : Nat := 4294967296

/-- The integer core of `botRand` (`game.ts:352-359`).  In JS every
intermediate here is exact in a double (all products stay below `2^53`)
and the bitwise ops reduce the operands to their low 32 bits, so the
function is exactly `((seed ⊕ (turn*1664525+1013904223) ⊕
(len*22695477+1)) * 1664525 + 1013904223) mod 2^32`, and the JS return
value is this numerator divided by `2^32` (an exact dyadic rational). -/
def botRandNum (seed turnIdx logLen : Nat) : Nat :=
  let s := (seed % pow32) ^^^ ((turnIdx * 1664525 + 1013904223) % pow32) ^^^
    ((logLen * 22695477 + 1) % pow32)
  (s * 1664525 + 1013904223) % pow32

/-- Model of `botRand` of a session: its numerator over `2^32`. -/
def botRand (s : Session) : Nat :=
  botRandNum s.gameState.rngSeed s.gameState.currentTurnIndex s.gameState.inputLog.length

/-- The `fallback` closure of `getBotActions` (`game.ts:419-428`): with
`r = botRand/2^32`, the fire payload carries `angle = r*120 - 60` (exact
dyadic rational) and `power = 45 + floor(r*45)`; `floor(r*45)` is exactly
`(botRandNum * 45) / 2^32` in integers.  Modelled as the exact pair. -/
def fallbackAction (s : Session) : ℚ × ℕ :=
  ((botRand s : ℚ) * 120 / (pow32 : ℚ) - 60, 45 + botRand s * 45 / pow32)

/-- One element of the `balls` array of a `ball_state` message: optional
`x, y, vx, vy, hp, alive` fields (`none` when absent or mistyped). -/
structure BallUpdate where
  x : Option Int
  y : Option Int
  vx : Option Int
  vy : Option Int
  hp : Option Int
  alive : Option Bool
deriving DecidableEq, Repr

/-- A parsed inbound client message, mirroring the `type`-tagged JSON the
handler dispatches on.  Optional fields are `none` when absent or of the
wrong JSON type (the code checks `Array.isArray` / `typeof x === "number"`
/ `typeof x === "string"` before use); `other` covers unknown tags and
unparseable payloads (which the code silently drops). -/
inductive ClientMsg where
  /-- Tagged `{ type: "terrain_damages", log?: number[][] }`. -/
  | terrainDamages (log : Option (List (List Int)))
  /-- Tagged `{ type: "pos_update", bi?, x?, y?, vx?, vy? }`. -/
  | posUpdate (bi : Option Int) (x y vx vy : Option Int)
  /-- Tagged `{ type: "restart", seed?: number }`. -/
  | restart (seed : Option Nat)
  /-- Tagged `{ type: "input", input?: string }`. -/
  | inputMsg (input : Option String)
  /-- Tagged `{ type: "aim", aim?: number }`. -/
  | aimMsg (aim : Option Int)
  /-- Tagged `{ type: "ball_state", balls?: [...] }`. -/
  | ballState (balls : Option (List BallUpdate))
  /-- Tagged `{ type: "retreat_start" }`. -/
  | retreatStart
  /-- Tagged `{ type: "end_turn" }`. -/
  | endTurn
  /-- any other / malformed message -/
  | other
deriving DecidableEq, Repr

/-- Field-wise overwrite of one snapshot by a `ball_state` element
(`game.ts:611-620`): only the fields present in the message are written. -/
def applyBallUpdate (s : BallSnapshot) (u : BallUpdate) : BallSnapshot :=
  { x := u.x.getD s.x
    y := u.y.getD s.y
    vx := u.vx.getD s.vx
    vy := u.vy.getD s.vy
    hp := u.hp.getD s.hp
    alive := u.alive.getD s.alive }

/-- The `forEach` of the `ball_state` branch: update snapshot `i` from
message element `i` while `i < ballSnapshots.length`; surplus elements of
either list are untouched/ignored. -/
def applyBallUpdates : List BallSnapshot → List BallUpdate → List BallSnapshot
  | [], _ => []
  | ss, [] => ss
  | s :: ss, u :: us => applyBallUpdate s u :: applyBallUpdates ss us

/-- Field-wise overwrite of one snapshot by a `pos_update`
(`game.ts:543-547`): position/velocity only, `hp`/`alive` untouched. -/
def applyPosUpdate (s : BallSnapshot) (x y vx vy : Option Int) : BallSnapshot :=
  { s with x := x.getD s.x, y := y.getD s.y, vx := vx.getD s.vx, vy := vy.getD s.vy }

/-- Model of `advanceTurn` (`game.ts:224-241`): rotate `currentTurnIndex`, reset the
phase to aiming, restart the turn clock, broadcast the `turn_advanced`
notice (with the current ball snapshots and terrain log) and the new
authoritative state, and re-arm the watchdog.
Precondition in JS: `playerOrder` is non-empty (on an empty order the JS
`%` would produce `NaN`; the `Nat` model yields `old + 1`, and every claim
about this function assumes a non-empty order). -/
def advanceTurn (s : Session) (now : Int) : StepOut :=
  let gs := s.gameState
  let gs' : GameState :=
    { gs with
      currentTurnIndex := (gs.currentTurnIndex + 1) % gs.playerOrder.length
      phase := .aiming
      turnEndTime := now + TURN_TIME_MS }
  let s' : Session := { s with gameState := gs', phaseStartTime := now }
  { session := s'
    msgs := [.turnAdvanced gs'.currentTurnIndex s.ballSnapshots s.terrainDamageLog,
             .stateMsg gs']
    alarm := some (scheduleWatchdog s') }

/-- The synchronous part of `maybeBotTurn` (`game.ts:644-695`): if the new
current player is a bot, the handler synchronously computes the bot plan
and broadcasts an aim preview; all walk/fire actions then happen in
deferred `setTimeout` callbacks outside this step. -/
def maybeBotTurnSync (s : Session) : List ServerMsg :=
  match s.gameState.playerOrder[s.gameState.currentTurnIndex]? with
  | some p => if p.isBot then [.botAimPreview s.gameState.currentTurnIndex] else []
  | none => []

/-- Model of `advanceTurnAndMaybeBot` (`game.ts:697-700`), synchronous part. -/
def advanceTurnAndMaybeBot (s : Session) (now : Int) : StepOut :=
  let r := advanceTurn s now
  { r with msgs := r.msgs ++ maybeBotTurnSync r.session }

/-- The substring the input branch classifies fire actions by:
`msg.input.includes( quote Fire quote )` (`game.ts:586`). -/
def fireTag : String := "\"Fire\""

/-- JS `String.includes`: substring containment. -/
def strIncludes (sub s : String) : Bool := decide (sub.toList <:+: s.toList)

/-- A no-op step result (a silent drop / early `return` in the code). -/
def noStep (s : Session) : StepOut := { session := s, msgs := [], alarm := none }

/-- The session after an accepted `pos_update` for ball `k`: field-wise
overwrite of snapshot `k` (the `getD` default is unreachable, the caller
has checked the bound). -/
def posApplied (s : Session) (k : Int) (x y vx vy : Option Int) : Session :=
  let snap := s.ballSnapshots.getD k.toNat blankBall
  { s with ballSnapshots := s.ballSnapshots.set k.toNat (applyPosUpdate snap x y vx vy) }

/-- Model of `webSocketMessage` (`game.ts:498-642`), for a message from the sender
with registered seat index `idx` at wall-clock `now`.  Faithful branch
order: `terrain_damages` (gated to the current-turn player), `pos_update`
(index-ownership gated), `restart` (any registered sender), then the
current-turn/non-bot gate, then `input` / `aim` / `ball_state` /
`retreat_start` / `end_turn`. -/
def webSocketMessage (s : Session) (idx : Nat) (msg : ClientMsg) (now : Int) : StepOut :=
  match msg with
  | .terrainDamages log =>
    -- Accept terrain_damages only from the current-turn player (game.ts:518)
    if idx ≠ s.gameState.currentTurnIndex then noStep s
    else
      match log with
      | some l =>
        if l.length ≥ s.terrainDamageLog.length then
          { session := { s with terrainDamageLog := l }, msgs := [], alarm := none }
        else noStep s
      | none => noStep s
  | .posUpdate bi x y vx vy =>
    let numPlayers := s.gameState.playerOrder.length
    (match bi with
     | some k =>
       if 0 ≤ k ∧ k.toNat < s.ballSnapshots.length ∧ 0 < numPlayers ∧
           k.toNat % numPlayers = idx then
         { session := posApplied s k x y vx vy
           msgs := [.posUpdateRelay k x y vx vy]
           alarm := none }
       else noStep s
     | none => noStep s)
  | .restart seed =>
    (match seed with
     | some sd =>
       let gs := s.gameState
       let gs' : GameState :=
         { gs with
           rngSeed := sd
           inputLog := []
           currentTurnIndex := 0
           phase := .aiming
           turnEndTime := now + TURN_TIME_MS }
       let s' : Session :=
         { gameState := gs'
           terrainDamageLog := []
           ballSnapshots := []
           phaseStartTime := now }
       { session := s'
         msgs := [.restartRelay sd, .stateMsg gs']
         alarm := some (scheduleWatchdog s') }
     | none =>
       -- "restart" without a numeric seed falls through to the turn-gated
       -- section, where no branch matches its type: silent drop.
       noStep s)
  | m =>
    -- All other message types require it to be the current turn player
    if s.gameState.currentTurnIndex ≠ idx then noStep s
    -- `current?.isBot` — an out-of-range index is falsy and does NOT return
    else if ((s.gameState.playerOrder[s.gameState.currentTurnIndex]?).map
        PlayerEntry.isBot).getD false then noStep s
    else
      match m with
      | .inputMsg (some input) =>
        let isFiring := strIncludes fireTag input
        if isFiring then
          let gs := s.gameState
          let gs' : GameState :=
            { gs with inputLog := gs.inputLog ++ [input], phase := .projectile }
          let s' : Session := { s with gameState := gs', phaseStartTime := now }
          { session := s'
            msgs := [.inputRelay input gs.currentTurnIndex, .stateMsg gs']
            alarm := some (scheduleWatchdog s') }
        else
          { session := s
            msgs := [.inputRelay input s.gameState.currentTurnIndex]
            alarm := none }
      | .aimMsg (some a) =>
        { session := s, msgs := [.aimRelay a s.gameState.currentTurnIndex], alarm := none }
      | .ballState balls =>
        let s' : Session :=
          match balls with
          | some l => { s with ballSnapshots := applyBallUpdates s.ballSnapshots l }
          | none => s
        -- the relay and persist happen whether or not `balls` was an array
        { session := s', msgs := [.ballStateRelay], alarm := none }
      | .retreatStart =>
        if s.gameState.phase = .projectile then
          let s' : Session :=
            { s with gameState := { s.gameState with phase := .retreat },
                     phaseStartTime := now }
          { session := s', msgs := [], alarm := some (scheduleWatchdog s') }
        else noStep s
      | .endTurn => advanceTurnAndMaybeBot s now
      | _ => noStep s

/-- The `alarm` watchdog handler (`game.ts:261-310`).  `connected` is the
set of playerIds whose WebSocket is currently open (`connectedPlayerIds`). -/
def alarm (s : Session) (connected : List String) (now : Int) : StepOut :=
  if s.gameState.playerOrder.length = 0 then noStep s -- Game not started
  else if s.gameState.phase = .projectile then
    if now ≥ s.phaseStartTime + PROJECTILE_TIMEOUT_MS then
      let r := advanceTurnAndMaybeBot s now
      { r with msgs := .forceAdvance "projectile_timeout" :: r.msgs }
    else
      { session := s, msgs := [], alarm := some (scheduleWatchdog s) }
  else if s.gameState.phase = .retreat then
    if now ≥ s.phaseStartTime + RETREAT_TIME_MS then
      let r := advanceTurnAndMaybeBot s now
      { r with msgs := .forceAdvance "retreat_timeout" :: r.msgs }
    else
      { session := s, msgs := [], alarm := some (scheduleWatchdog s) }
  else
    let activePid := (s.gameState.playerOrder[s.gameState.currentTurnIndex]?).map
      PlayerEntry.playerId
    let activeIsConnected := match activePid with
      | some pid => connected.contains pid
      | none => false
    if activeIsConnected = false then
      let r := advanceTurnAndMaybeBot s now
      { r with msgs := .forceAdvance "player_disconnected" :: r.msgs }
    else if now ≥ s.gameState.turnEndTime + WATCHDOG_GRACE_MS then
      let r := advanceTurnAndMaybeBot s now
      { r with msgs := .forceAdvance "turn_timeout" :: r.msgs }
    else
      { session := s, msgs := [], alarm := some (scheduleWatchdog s) }

/-! Concrete fixtures used by witness and counterexample theorems. -/

/-- A human player fixture. -/
def pA : PlayerEntry := { playerId := "A", isBot := false, name := "Alice" }
/-- A second human player fixture. -/
def pB : PlayerEntry := { playerId := "B", isBot := false, name := "Bob" }

/-- A freshly constructed, never-initialized session. -/
def exEmpty : Session :=
  { gameState :=
      { playerOrder := []
        inputLog := []
        currentTurnIndex := 0
        turnEndTime := 0
        phase := .aiming
        rngSeed := 0
        terrainId := 0 }
    terrainDamageLog := []
    ballSnapshots := []
    phaseStartTime := 0 }

/-- An initialized two-player session with player 0 to act. -/
def exStarted : Session :=
  { gameState :=
      { playerOrder := [pA, pB]
        inputLog := []
        currentTurnIndex := 0
        turnEndTime := 45000
        phase := .aiming
        rngSeed := 42
        terrainId := 0 }
    terrainDamageLog := []
    ballSnapshots := List.replicate 6 blankBall
    phaseStartTime := 0 }

/-- An init body carrying both players and a seed. -/
def exBody : InitBody :=
  { playerOrder := some [pA, pB], rngSeed := some 42, terrainId := some 0 }

/-- The started session mid-game: one logged input and a non-empty terrain log. -/
def exLogged : Session :=
  { exStarted with
    gameState := { exStarted.gameState with inputLog := ["x"] }
    terrainDamageLog := [[5, 6, 7]] }

/-- The started session in the projectile phase with `phaseStartTime = 1000`. -/
def exProjectile : Session :=
  { exStarted with
    gameState := { exStarted.gameState with phase := .projectile }
    phaseStartTime := 1000 }

/-- The game state after an accepted fire input: payload appended to the
log and phase moved to projectile (`game.ts:589-592`). -/
def fireGameState (gs : GameState) (input : String) : GameState :=
  { gs with inputLog := gs.inputLog ++ [input], phase := .projectile }

/-- The session right after an accepted restart on `exLogged`. -/
def exRestarted : Session := (webSocketMessage exLogged 0 (.restart (some 7)) 0).session

/-- A one-field `ball_state` element fixture. -/
def exBallUpdate : BallUpdate :=
  { x := some 1, y := none, vx := none, vy := none, hp := none, alive := none }

/-- C1: Initialization is idempotent: on a session whose `playerOrder` is
already non-empty, `handleInit` with any payload returns the
already-initialized response and leaves the whole session (in particular
`playerOrder`, `rngSeed`, `inputLog`, `currentTurnIndex`, `phase`)
unchanged; on an empty session it populates `playerOrder` and `rngSeed`
from the payload and sets `phase = aiming`, `currentTurnIndex = 0`. -/
theorem handleInit_idempotent (s : Session) (body : InitBody) (now : Int) (fb : Nat) :
    (s.gameState.playerOrder ≠ [] →
      handleInit s body now fb = (s, .alreadyInitialized)) ∧
    (s.gameState.playerOrder = [] → ∀ po seed, body.playerOrder = some po →
      body.rngSeed = some seed →
      (handleInit s body now fb).1.gameState.playerOrder = po ∧
      (handleInit s body now fb).1.gameState.rngSeed = seed ∧
      (handleInit s body now fb).1.gameState.phase = .aiming ∧
      (handleInit s body now fb).1.gameState.currentTurnIndex = 0 ∧
      (handleInit s body now fb).2 = .ok) := by
  constructor
  · intro hne
    have hlen : 0 < s.gameState.playerOrder.length := List.length_pos.mpr hne
    simp [handleInit, hlen]
  · intro hemp po seed hpo hseed
    have hlen : ¬ 0 < s.gameState.playerOrder.length := by simp [hemp]
    simp [handleInit, hlen, hpo, hseed]

/-- Closed witness for C1: the two branches of `handleInit_idempotent`
evaluated on concrete sessions. -/
theorem handleInit_idempotent_witness :
    handleInit exStarted exBody 7 0 = (exStarted, .alreadyInitialized) ∧
    (handleInit exEmpty exBody 7 0).1.gameState.playerOrder = [pA, pB] ∧
    (handleInit exEmpty exBody 7 0).1.gameState.rngSeed = 42 := by
  have h1 := (handleInit_idempotent exStarted exBody 7 0).1 (by decide)
  have h2 := (handleInit_idempotent exEmpty exBody 7 0).2 (by decide) [pA, pB] 42
    (by decide) (by decide)
  exact ⟨h1, h2.1, h2.2.1⟩

/-- C2: Monotonic terrain-log merge: a `terrain_damages` candidate shorter
than the stored log never changes it (for any sender), and a candidate at
least as long, submitted by the current-turn player (the sender class the
merge code runs for), replaces it. -/
theorem terrain_merge_monotonic (s : Session) (idx : Nat) (cand : List (List Int))
    (now : Int) :
    (cand.length < s.terrainDamageLog.length →
      (webSocketMessage s idx (.terrainDamages (some cand)) now).session.terrainDamageLog
        = s.terrainDamageLog) ∧
    (idx = s.gameState.currentTurnIndex → s.terrainDamageLog.length ≤ cand.length →
      (webSocketMessage s idx (.terrainDamages (some cand)) now).session.terrainDamageLog
        = cand) := by
  constructor
  · intro hlt
    by_cases hidx : idx = s.gameState.currentTurnIndex
    · simp [webSocketMessage, hidx, noStep, Nat.not_le.mpr hlt]
    · simp [webSocketMessage, hidx, noStep]
  · intro hidx hge
    simp [webSocketMessage, hidx, noStep, hge]

/-- Closed witness for C2 on a concrete session: a length-0 candidate
leaves the stored one-event log unchanged, a length-2 candidate from the
current-turn player replaces it. -/
theorem terrain_merge_monotonic_witness :
    (webSocketMessage exLogged 0 (.terrainDamages (some [])) 3).session.terrainDamageLog
      = [[5, 6, 7]] ∧
    (webSocketMessage exLogged 0
        (.terrainDamages (some [[5, 6, 7], [8, 9, 10]])) 3).session.terrainDamageLog
      = [[5, 6, 7], [8, 9, 10]] := by
  have h1 := (terrain_merge_monotonic exLogged 0 [] 3).1 (by decide)
  have h2 := (terrain_merge_monotonic exLogged 0 [[5, 6, 7], [8, 9, 10]] 3).2
    (by decide) (by decide)
  exact ⟨h1, h2⟩

/-- C3 counterexample: the claim says a `terrain_damages` message from any
registered player whose candidate is at least as long as the stored log
replaces it; but on `exStarted` (current turn player 0, empty stored log)
the registered player 1 submits a length-1 candidate and the stored log
stays empty — the handler accepts terrain logs only from the current-turn
player (`game.ts:518`). -/
theorem terrain_any_sender_counterexample :
    (webSocketMessage exStarted 1 (.terrainDamages (some [[1, 2, 3]])) 0).session.terrainDamageLog
        = [] ∧
    ([] : List (List Int)) ≠ [[1, 2, 3]] := by decide

/-- C3 (amended): `terrain_damages` is turn-gated, not accepted from any
sender: a submission from a registered player other than the current-turn
player is a complete no-op regardless of candidate length, while one from
the current-turn player with a candidate at least as long as the stored
log replaces it. -/
theorem terrain_turn_gated (s : Session) (idx : Nat) (now : Int) :
    (∀ log, idx ≠ s.gameState.currentTurnIndex →
      webSocketMessage s idx (.terrainDamages log) now = noStep s) ∧
    (∀ cand, idx = s.gameState.currentTurnIndex →
      s.terrainDamageLog.length ≤ cand.length →
      (webSocketMessage s idx (.terrainDamages (some cand)) now).session.terrainDamageLog
        = cand) := by
  constructor
  · intro log hne
    simp [webSocketMessage, hne]
  · intro cand hidx hge
    simp [webSocketMessage, hidx, hge]

/-- Closed witness for the amended C3. -/
theorem terrain_turn_gated_witness :
    webSocketMessage exLogged 1 (.terrainDamages (some [[1, 2, 3], [4, 5, 6]])) 0
      = noStep exLogged ∧
    (webSocketMessage exLogged 0
        (.terrainDamages (some [[1, 2, 3], [4, 5, 6]])) 0).session.terrainDamageLog
      = [[1, 2, 3], [4, 5, 6]] := by
  have h1 := (terrain_turn_gated exLogged 1 0).1 (some [[1, 2, 3], [4, 5, 6]]) (by decide)
  have h2 := (terrain_turn_gated exLogged 0 0).2 [[1, 2, 3], [4, 5, 6]] (by decide) (by decide)
  exact ⟨h1, h2⟩

/-- C4: Advance-turn postcondition: on a session with non-empty
`playerOrder`, `advanceTurn` sets `currentTurnIndex` to the successor mod
player count, `phase` to aiming, the deadline to `now + TURN_TIME_MS` and
`phaseStartTime` to `now`, all in the same step, broadcasts exactly the
`turn_advanced` notice (carrying the current terrain log and ball
snapshots) followed by the new authoritative state, and re-arms the
watchdog; the explicit `end_turn` path from the active human player and
the watchdog projectile force-advance both produce exactly this session. -/
theorem advanceTurn_postcondition (s : Session) (now : Int)
    (hne : s.gameState.playerOrder ≠ []) :
    (advanceTurn s now).session.gameState.currentTurnIndex
        = (s.gameState.currentTurnIndex + 1) % s.gameState.playerOrder.length ∧
    (advanceTurn s now).session.gameState.phase = .aiming ∧
    (advanceTurn s now).session.gameState.turnEndTime = now + TURN_TIME_MS ∧
    (advanceTurn s now).session.phaseStartTime = now ∧
    (advanceTurn s now).msgs
        = [.turnAdvanced ((s.gameState.currentTurnIndex + 1) % s.gameState.playerOrder.length)
             s.ballSnapshots s.terrainDamageLog,
           .stateMsg (advanceTurn s now).session.gameState] ∧
    (advanceTurn s now).alarm = some (now + TURN_TIME_MS + WATCHDOG_GRACE_MS) ∧
    (∀ idx, idx = s.gameState.currentTurnIndex →
      ((s.gameState.playerOrder[s.gameState.currentTurnIndex]?).map
          PlayerEntry.isBot).getD false = false →
      (webSocketMessage s idx .endTurn now).session = (advanceTurn s now).session) ∧
    (∀ connected, s.gameState.phase = .projectile →
      s.phaseStartTime + PROJECTILE_TIMEOUT_MS ≤ now →
      (alarm s connected now).session = (advanceTurn s now).session) := by
  have hlen : s.gameState.playerOrder.length ≠ 0 :=
    fun h => hne (List.length_eq_zero.mp h)
  refine ⟨rfl, rfl, rfl, rfl, rfl, ?_, ?_, ?_⟩
  · simp [advanceTurn, scheduleWatchdog]
  · intro idx hidx hbot
    subst hidx
    simp [webSocketMessage, hbot, advanceTurnAndMaybeBot]
  · intro connected hph hle
    simp [alarm, hlen, hph, advanceTurnAndMaybeBot, hle]

/-- Closed witness for C4 at a concrete session. -/
theorem advanceTurn_postcondition_witness :
    (advanceTurn exStarted 100).session.gameState.currentTurnIndex = 1 ∧
    (advanceTurn exStarted 100).session.gameState.phase = .aiming ∧
    (advanceTurn exStarted 100).session.gameState.turnEndTime = 45100 ∧
    (webSocketMessage exStarted 0 .endTurn 100).session
      = (advanceTurn exStarted 100).session := by
  have h := advanceTurn_postcondition exStarted 100 (by decide)
  refine ⟨?_, h.2.1, ?_, h.2.2.2.2.2.2.1 0 (by decide) (by decide)⟩
  · rw [h.1]; decide
  · rw [h.2.2.1]; decide

/-- C5: The watchdog never force-advances the projectile phase early: while
`phase = projectile` (on a started session), an alarm fire before
`phaseStartTime + PROJECTILE_TIMEOUT_MS` leaves the session unchanged,
broadcasts nothing, and only re-arms the alarm at that same absolute
deadline; a fire at or after it broadcasts `force_advance` with reason
`projectile_timeout` and performs exactly the advance-turn step (which may
trigger the bot planner for the new current player). -/
theorem alarm_projectile_never_early (s : Session) (connected : List String) (now : Int)
    (hph : s.gameState.phase = .projectile) (hne : s.gameState.playerOrder ≠ []) :
    (now < s.phaseStartTime + PROJECTILE_TIMEOUT_MS →
      alarm s connected now
        = { session := s, msgs := [],
            alarm := some (s.phaseStartTime + PROJECTILE_TIMEOUT_MS) }) ∧
    (s.phaseStartTime + PROJECTILE_TIMEOUT_MS ≤ now →
      alarm s connected now
        = { advanceTurnAndMaybeBot s now with
            msgs := .forceAdvance "projectile_timeout"
              :: (advanceTurnAndMaybeBot s now).msgs }) := by
  have hlen : s.gameState.playerOrder.length ≠ 0 :=
    fun h => hne (List.length_eq_zero.mp h)
  constructor
  · intro hlt
    simp [alarm, hlen, hph, not_le.mpr hlt, scheduleWatchdog]
  · intro hge
    simp [alarm, hlen, hph, hge]

/-- Closed witness for C5: on `exProjectile` (`phaseStartTime = 1000`) a
fire at `now = 2000` is a pure re-arm at `21000`, and a fire at
`now = 21000` force-advances with reason `projectile_timeout`. -/
theorem alarm_projectile_never_early_witness :
    alarm exProjectile ["A", "B"] 2000
      = { session := exProjectile, msgs := [], alarm := some 21000 } ∧
    alarm exProjectile ["A", "B"] 21000
      = { advanceTurnAndMaybeBot exProjectile 21000 with
          msgs := .forceAdvance "projectile_timeout"
            :: (advanceTurnAndMaybeBot exProjectile 21000).msgs } := by
  have h := alarm_projectile_never_early exProjectile ["A", "B"] 2000 (by decide) (by decide)
  have h2 := alarm_projectile_never_early exProjectile ["A", "B"] 21000 (by decide) (by decide)
  exact ⟨h.1 (by decide), h2.2 (by decide)⟩

/-- C6: Unit-ownership enforcement for `pos_update`: for a sender with seat
index `idx` (a valid seat, so `numPlayers > 0`), an update for ball index
`k` is applied to the stored snapshot (field-wise, position/velocity only)
and relayed exactly when `k` is in range and `k mod numPlayers = idx`;
otherwise the whole step is a no-op — no snapshot change, nothing relayed. -/
theorem posUpdate_ownership (s : Session) (idx : Nat) (k : Int) (x y vx vy : Option Int)
    (now : Int) (hseat : idx < s.gameState.playerOrder.length) :
    (0 ≤ k ∧ k.toNat < s.ballSnapshots.length ∧
        k.toNat % s.gameState.playerOrder.length = idx →
      webSocketMessage s idx (.posUpdate (some k) x y vx vy) now
        = { session := posApplied s k x y vx vy
            msgs := [.posUpdateRelay k x y vx vy]
            alarm := none }) ∧
    (¬ (0 ≤ k ∧ k.toNat < s.ballSnapshots.length ∧
        k.toNat % s.gameState.playerOrder.length = idx) →
      webSocketMessage s idx (.posUpdate (some k) x y vx vy) now = noStep s) := by
  have hpos : 0 < s.gameState.playerOrder.length := Nat.lt_of_le_of_lt (Nat.zero_le idx) hseat
  constructor
  · intro hk
    simp only [webSocketMessage]
    rw [if_pos ⟨hk.1, hk.2.1, hpos, hk.2.2⟩]
  · intro hk
    simp only [webSocketMessage]
    rw [if_neg (fun hc => hk ⟨hc.1, hc.2.1, hc.2.2.2⟩)]

/-- Closed witness for C6 on `exStarted` (2 players, 6 balls): ball 2
belongs to seat 0, so an update from seat 0 is applied and relayed, and
the same update from seat 1 is silently dropped. -/
theorem posUpdate_ownership_witness :
    (webSocketMessage exStarted 0
        (.posUpdate (some 2) (some 11) (some 22) none none) 0).session
      = posApplied exStarted 2 (some 11) (some 22) none none ∧
    webSocketMessage exStarted 1
        (.posUpdate (some 2) (some 11) (some 22) none none) 0 = noStep exStarted := by
  have h0 := (posUpdate_ownership exStarted 0 2 (some 11) (some 22) none none 0
    (by decide)).1 (by decide)
  have h1 := (posUpdate_ownership exStarted 1 2 (some 11) (some 22) none none 0
    (by decide)).2 (by decide)
  constructor
  · rw [h0]
  · exact h1

/-- C7: Bot determinism: `botRand` is a pure function of
`(rngSeed, currentTurnIndex, inputLog.length)` — two sessions agreeing on
that triple (whatever their other fields) yield the same pseudo-random
value, the value is exactly the 32-bit linear-congruential step
`(seed xor (turn*1664525+1013904223) xor (len*22695477+1)) * 1664525 +
1013904223 mod 2^32`, and the fallback fire payload derived from it
(angle and power of the fire action) is identical across the two
evaluations. -/
theorem botRand_deterministic (g1 g2 : Session)
    (hseed : g1.gameState.rngSeed = g2.gameState.rngSeed)
    (hturn : g1.gameState.currentTurnIndex = g2.gameState.currentTurnIndex)
    (hlog : g1.gameState.inputLog.length = g2.gameState.inputLog.length) :
    botRand g1 = botRand g2 ∧
    botRand g1 = ((g1.gameState.rngSeed % pow32 ^^^
        (g1.gameState.currentTurnIndex * 1664525 + 1013904223) % pow32 ^^^
        (g1.gameState.inputLog.length * 22695477 + 1) % pow32) * 1664525
          + 1013904223) % pow32 ∧
    fallbackAction g1 = fallbackAction g2 := by
  refine ⟨?_, rfl, ?_⟩
  · simp [botRand, hseed, hturn, hlog]
  · simp [fallbackAction, botRand, hseed, hturn, hlog]

/-- Closed witness for C7: two sessions sharing only the RNG triple (but
differing in phase, terrain log, snapshots and timers) produce the same
`botRand` value. -/
theorem botRand_deterministic_witness :
    botRand exStarted = botRand
      { exProjectile with
        gameState := { exProjectile.gameState with turnEndTime := 9999 } } := by
  exact (botRand_deterministic exStarted
    { exProjectile with
      gameState := { exProjectile.gameState with turnEndTime := 9999 } }
    (by decide) (by decide) (by decide)).1

/-- C8 counterexample: the claim says every handled message leaves the old
`inputLog` as a prefix of the new one, but an accepted `restart` (any
registered sender, numeric seed) resets `inputLog` to `[]`
(`game.ts:561`): on `exLogged` (whose log is `["x"]`) the log after a
restart is empty, and `["x"]` is not a prefix of `[]`. -/
theorem inputLog_append_only_counterexample :
    exLogged.gameState.inputLog = ["x"] ∧
    (webSocketMessage exLogged 0 (.restart (some 7)) 0).session.gameState.inputLog = [] ∧
    ¬ (exLogged.gameState.inputLog <+:
        (webSocketMessage exLogged 0 (.restart (some 7)) 0).session.gameState.inputLog) := by
  refine ⟨rfl, rfl, ?_⟩
  decide

/-- C8 (amended): the `inputLog` is append-only across every inbound
message except an accepted `restart` (which deliberately resets the whole
session for a new game): for every other message the old log is a prefix
of the new one. -/
theorem inputLog_append_only_amended (s : Session) (idx : Nat) (msg : ClientMsg)
    (now : Int) (hmsg : ∀ sd, msg ≠ .restart (some sd)) :
    s.gameState.inputLog <+:
      (webSocketMessage s idx msg now).session.gameState.inputLog := by
  cases msg with
  | restart seed =>
    cases seed with
    | none => simp [webSocketMessage, noStep]
    | some sd => exact absurd rfl (hmsg sd)
  | terrainDamages log =>
    simp only [webSocketMessage]
    repeat' split
    all_goals simp_all [noStep]
  | posUpdate bi x y vx vy =>
    simp only [webSocketMessage]
    repeat' split
    all_goals simp_all [noStep, posApplied]
  | inputMsg input =>
    simp only [webSocketMessage]
    repeat' split
    all_goals simp_all [noStep, List.prefix_append]
  | aimMsg a =>
    simp only [webSocketMessage]
    repeat' split
    all_goals simp_all [noStep]
  | ballState balls =>
    simp only [webSocketMessage]
    repeat' split
    all_goals simp_all [noStep]
  | retreatStart =>
    simp only [webSocketMessage]
    repeat' split
    all_goals simp_all [noStep]
  | endTurn =>
    simp only [webSocketMessage]
    repeat' split
    all_goals simp_all [noStep, advanceTurnAndMaybeBot, advanceTurn]
  | other =>
    simp only [webSocketMessage]
    repeat' split
    all_goals simp_all [noStep]

/-- Closed witness for the amended C8: a fire input appends to the log,
keeping the old log as a prefix. -/
theorem inputLog_append_only_amended_witness :
    exLogged.gameState.inputLog <+:
      (webSocketMessage exLogged 0
        (.inputMsg (some "a\"Fire\"b")) 5).session.gameState.inputLog := by
  exact inputLog_append_only_amended exLogged 0 (.inputMsg (some "a\"Fire\"b")) 5
    (fun sd h => ClientMsg.noConfusion h)

/-- C9: Fire classification is by substring containment: an `input` message
from the current-turn human player appends to `inputLog` and moves the
phase to projectile exactly when the payload contains the 6-character
substring consisting of `Fire` surrounded by double quotes; a payload
without it is only relayed — session (so `inputLog`, `phase`,
`currentTurnIndex` and the turn deadline) unchanged, no alarm re-armed.
A firing payload changes only `inputLog`, `phase` and `phaseStartTime`,
relays the input, broadcasts the new state and re-arms the projectile
watchdog. -/
theorem input_fire_classification (s : Session) (idx : Nat) (input : String) (now : Int)
    (hturn : s.gameState.currentTurnIndex = idx)
    (hbot : ((s.gameState.playerOrder[s.gameState.currentTurnIndex]?).map
        PlayerEntry.isBot).getD false = false) :
    (((webSocketMessage s idx (.inputMsg (some input)) now).session.gameState.inputLog
          = s.gameState.inputLog ++ [input] ∧
        (webSocketMessage s idx (.inputMsg (some input)) now).session.gameState.phase
          = .projectile)
      ↔ strIncludes fireTag input = true) ∧
    (strIncludes fireTag input = false →
      webSocketMessage s idx (.inputMsg (some input)) now
        = { session := s
            msgs := [.inputRelay input s.gameState.currentTurnIndex]
            alarm := none }) ∧
    (strIncludes fireTag input = true →
      webSocketMessage s idx (.inputMsg (some input)) now
        = { session :=
              { s with
                gameState := fireGameState s.gameState input
                phaseStartTime := now }
            msgs := [.inputRelay input s.gameState.currentTurnIndex,
                     .stateMsg (fireGameState s.gameState input)]
            alarm := some (now + PROJECTILE_TIMEOUT_MS) }) := by
  subst hturn
  by_cases hf : strIncludes fireTag input = true
  · have hres : webSocketMessage s s.gameState.currentTurnIndex
        (.inputMsg (some input)) now
        = { session :=
              { s with
                gameState := fireGameState s.gameState input
                phaseStartTime := now }
            msgs := [.inputRelay input s.gameState.currentTurnIndex,
                     .stateMsg (fireGameState s.gameState input)]
            alarm := some (now + PROJECTILE_TIMEOUT_MS) } := by
      simp [webSocketMessage, hbot, hf, fireGameState, scheduleWatchdog]
    refine ⟨?_, ?_, fun _ => hres⟩
    · rw [hres]; simp [fireGameState, hf]
    · intro hff; rw [hf] at hff; cases hff
  · have hf0 : strIncludes fireTag input = false := Bool.eq_false_iff.mpr hf
    have hres : webSocketMessage s s.gameState.currentTurnIndex
        (.inputMsg (some input)) now
        = { session := s
            msgs := [.inputRelay input s.gameState.currentTurnIndex]
            alarm := none } := by
      simp [webSocketMessage, hbot, hf0]
    have hlog : s.gameState.inputLog ≠ s.gameState.inputLog ++ [input] := by
      intro h
      have := congrArg List.length h
      simp at this
    refine ⟨?_, fun _ => hres, ?_⟩
    · rw [hres]
      constructor
      · intro h
        exact absurd h.1 hlog
      · intro h
        rw [hf0] at h
        cases h
    · intro h
      rw [hf0] at h
      cases h

/-- Closed witness for C9: on `exStarted`, the payload containing the
quoted Fire tag is logged and flips the phase, a jump payload is only
relayed. -/
theorem input_fire_classification_witness :
    (webSocketMessage exStarted 0
        (.inputMsg (some "a\"Fire\"z")) 9).session.gameState.inputLog = ["a\"Fire\"z"] ∧
    (webSocketMessage exStarted 0
        (.inputMsg (some "a\"Fire\"z")) 9).session.gameState.phase = .projectile ∧
    webSocketMessage exStarted 0 (.inputMsg (some "Jump")) 9
      = { session := exStarted
          msgs := [.inputRelay "Jump" 0]
          alarm := none } := by
  have h := input_fire_classification exStarted 0 "a\"Fire\"z" 9 (by decide) (by decide)
  have hj := input_fire_classification exStarted 0 "Jump" 9 (by decide) (by decide)
  have hfire := h.1.mpr (by decide)
  exact ⟨hfire.1, hfire.2, hj.2.1 (by decide)⟩

/-- C10: An accepted restart resets `ballSnapshots` to the empty array
(unlike initialization, which creates 3 zeroed placeholders per player),
and emptiness is preserved by every subsequent `pos_update` and
`ball_state`: their index-bounds checks reject all updates against a
length-0 array, so no ball telemetry is stored until a new
initialization. -/
theorem restart_empties_snapshots (s : Session) (idx : Nat) (sd : Nat) (now : Int) :
    (webSocketMessage s idx (.restart (some sd)) now).session.ballSnapshots = [] ∧
    (∀ bi x y vx vy, s.ballSnapshots = [] →
      (webSocketMessage s idx (.posUpdate bi x y vx vy) now).session.ballSnapshots = []) ∧
    (∀ balls, s.ballSnapshots = [] →
      (webSocketMessage s idx (.ballState balls) now).session.ballSnapshots = []) ∧
    (∀ body fb, s.gameState.playerOrder = [] →
      (handleInit s body now fb).1.ballSnapshots
        = List.replicate ((body.playerOrder.getD []).length * 3) blankBall) := by
  refine ⟨?_, ?_, ?_, ?_⟩
  · simp [webSocketMessage]
  · intro bi x y vx vy hemp
    cases bi with
    | none => simp [webSocketMessage, noStep, hemp]
    | some k => simp [webSocketMessage, hemp, noStep]
  · intro balls hemp
    simp only [webSocketMessage]
    repeat' split
    all_goals simp_all [noStep, applyBallUpdates]
  · intro body fb hemp
    simp [handleInit, hemp]

/-- Closed witness for C10: restart on `exLogged` empties the snapshots,
and a subsequent in-range-looking `pos_update` and `ball_state` both leave
them empty. -/
theorem restart_empties_snapshots_witness :
    exRestarted.ballSnapshots = [] ∧
    (webSocketMessage exRestarted 1
        (.posUpdate (some 0) (some 1) none none none) 2).session.ballSnapshots = [] ∧
    (webSocketMessage exRestarted 0
        (.ballState (some [exBallUpdate])) 2).session.ballSnapshots = [] := by
  have h1 := (restart_empties_snapshots exLogged 0 7 0).1
  have h2 := restart_empties_snapshots exRestarted 1 7 2
  have h3 := restart_empties_snapshots exRestarted 0 7 2
  exact ⟨h1, h2.2.1 (some 0) (some 1) none none none h1,
    h3.2.2.1 (some [exBallUpdate]) h1⟩

end Balls
